import Mathlib

/-!
Shallow embedding of `src/Codes/2DCNN/Models/SEDUNet.py`.

The repository builds a Keras computation graph; the properties at stake are
all about graph *structure*: static tensor shapes (rank-4 `(batch, h, w, c)`,
batch omitted), the list of model outputs, and the channel bookkeeping of the
merge stages.  Each Keras layer is embedded as its effect on the static shape,
exactly as the framework computes it:

* `Conv2D(filters, kernel, padding='same')`  : spatial dims kept, channels
  become `filters`;
* `Conv2D(filters, (1,1))` (valid padding, kernel 1): spatial dims kept;
* `Conv2DTranspose(filters, (2,2), strides=(2,2), padding='same')` : spatial
  dims doubled, channels become `filters`;
* `MaxPooling2D((2,2))` (valid padding): spatial dims floor-halved;
* `UpSampling2D((2,2))` : spatial dims doubled;
* `concatenate(axis=-1)` : channels added, spatial dims of the first operand;
* `BatchNormalization`, `Activation`, `Multiply` by a broadcast gate: shape
  preserved;
* `GlobalAveragePooling2D` : rank-2 `(batch, c)`;
* `Dense(units)` : rank-2 `(batch, units)`;
* `Reshape(target)` : the target shape;
* `ConvLSTM2D(filters, padding='same', return_sequences=False)` on a rank-5
  `(batch, time, h, w, c)` input: rank-4 `(h, w, filters)`.

Integer arithmetic of the source (`//`, `np.int32(x / 2**k)`,
`np.int32(w * 2**e)` with possibly negative `e`) is embedded with explicit
truncating `Nat` division; all values involved are nonnegative, so
truncation toward zero coincides with flooring.
-/

/-- Static shape of a rank-4 tensor, batch dimension omitted. -/
structure TensorShape where
  h : Nat
  w : Nat
  c : Nat
deriving DecidableEq, Repr

/-- Static shape of a rank-2 tensor `(batch, features)`, batch omitted. -/
structure VecShape where
  n : Nat
deriving DecidableEq, Repr

/-- Static shape of a rank-5 tensor `(batch, time, h, w, c)`, batch omitted. -/
structure SeqTensorShape where
  t : Nat
  h : Nat
  w : Nat
  c : Nat
deriving DecidableEq, Repr

/-- `tf.keras.layers.concatenate([a, b], axis=-1)`: channel concatenation. -/
def concatenate (a b : TensorShape) : TensorShape :=
  { h := a.h, w := a.w, c := a.c + b.c }

/-- `Conv_Block` (SEDUNet.py lines 6-12): Conv2D(model_width*multiplier,
kernel, padding='same') then BatchNormalization then relu. -/
def Conv_Block (inputs : TensorShape) (model_width kernel multiplier : Nat) : TensorShape :=
  { h := inputs.h, w := inputs.w, c := model_width * multiplier }

/-- `trans_conv2D` (lines 15-21): Conv2DTranspose(model_width*multiplier,
(2,2), strides=(2,2), padding='same') then BatchNormalization then relu. -/
def trans_conv2D (inputs : TensorShape) (model_width multiplier : Nat) : TensorShape :=
  { h := 2 * inputs.h, w := 2 * inputs.w, c := model_width * multiplier }

/-- `Concat_Block` (lines 24-30): `cat = input1`, then
`for arg in range(0, len(argv)): cat = concatenate([cat, argv[arg]])`.
The indexed loop is embedded literally, indexing into `argv`. -/
def Concat_Block (input1 : TensorShape) (argv : List TensorShape) : TensorShape :=
  (List.range argv.length).foldl
    (fun cat arg => concatenate cat (argv.getD arg ⟨0, 0, 0⟩)) input1

/-- `upConv_Block` (lines 33-37): UpSampling2D(size=(2,2)). -/
def upConv_Block (inputs : TensorShape) : TensorShape :=
  { h := 2 * inputs.h, w := 2 * inputs.w, c := inputs.c }

/-- `Feature_Extraction_Block` (lines 40-48): Flatten, Dense(feature_number),
Dense(model_width*h*w), Reshape((h, w, model_width)).  `shape[1]`/`shape[2]`
are the spatial dims, so spatial dims are preserved and the channel count
becomes `model_width`. -/
def Feature_Extraction_Block (inputs : TensorShape) (model_width feature_number : Nat) :
    TensorShape :=
  { h := inputs.h, w := inputs.w, c := model_width }

/-- `dense_block` (lines 51-57): `num_layers` times, two chained Conv_Blocks
and concatenation of the (single) result onto the running tensor. -/
def dense_block (x : TensorShape) (num_filters kernel_size multiplier num_layers : Nat) :
    TensorShape :=
  match num_layers with
  | 0 => x
  | n + 1 =>
    dense_block
      (concatenate x
        (Conv_Block (Conv_Block x num_filters kernel_size multiplier)
          num_filters kernel_size multiplier))
      num_filters kernel_size multiplier n

/-- `tf.keras.layers.GlobalAveragePooling2D`: rank-4 to rank-2 `(batch, c)`. -/
def GlobalAveragePooling2D (x : TensorShape) : VecShape := ⟨x.c⟩

/-- `tf.keras.layers.Dense(units)` on a rank-2 tensor. -/
def DenseLayer (units : Nat) (y : VecShape) : VecShape := ⟨units⟩

/-- Units of the reduce layer inside `SqueezeExcite`: `nb_chan // ratio`
(Python floor division, line 63). -/
def SqueezeExciteReduce (nb_chan ratio : Nat) : Nat := nb_chan / ratio

/-- `SqueezeExcite` (lines 60-67): GAP, Dense(nb_chan // ratio, relu),
Dense(nb_chan, sigmoid), Multiply([x, y]) (gate broadcast over spatial dims,
so the output shape is the input shape with channels `nb_chan`). -/
def SqueezeExcite (x : TensorShape) (ratio : Nat) : TensorShape :=
  let nb_chan := x.c
  let y := GlobalAveragePooling2D x
  let y := DenseLayer (SqueezeExciteReduce nb_chan ratio) y
  let y := DenseLayer nb_chan y
  { h := x.h, w := x.w, c := y.n }

/-- `Conv2D(filters, (1,1))` with default valid padding and stride 1:
spatial dims preserved, channel count `filters`.  Used for the deep
supervision heads (line 159) and the output projection (lines 182, 184). -/
def Conv2D_1x1 (filters : Nat) (x : TensorShape) : TensorShape :=
  { h := x.h, w := x.w, c := filters }

/-- `tf.keras.layers.MaxPooling2D(pool_size=(2,2))` (valid padding):
spatial dims floor-halved. -/
def MaxPooling2D (x : TensorShape) : TensorShape :=
  { h := x.h / 2, w := x.w / 2, c := x.c }

/-- `tf.keras.layers.concatenate([x1, x2], axis=-1)` on rank-5 tensors. -/
def seqConcat (a b : SeqTensorShape) : SeqTensorShape :=
  { t := a.t, h := a.h, w := a.w, c := a.c + b.c }

/-- `tf.keras.layers.ConvLSTM2D(filters, (3,3), padding='same',
return_sequences=False, go_backwards=True)`: collapses the time dimension,
spatial dims preserved, channel count `filters`. -/
def ConvLSTM2D (filters : Nat) (x : SeqTensorShape) : TensorShape :=
  { h := x.h, w := x.w, c := filters }

/-- `Attention_Block` (lines 70-86).  Internally: stride-2 1x1 conv of the
skip, stride-1 1x1 conv of the gating signal, add, relu, 1x1 conv to a
single-channel mask, sigmoid, mask upsampled 2x (sum of UpSampling2D and
Conv2DTranspose paths), and finally `skip_connection * resampler`, an
elementwise product broadcasting the 1-channel mask over the skip tensor.
The result therefore has exactly the shape of `skip_connection`. -/
def Attention_Block (skip_connection gating_signal : TensorShape)
    (num_filters multiplier : Nat) : TensorShape :=
  { h := skip_connection.h, w := skip_connection.w, c := skip_connection.c }

/-- `np.int32(model_width * (2 ** ((model_depth - j) - 2)))` at line 171.
The Python exponent is a (possibly negative) machine integer; for a negative
exponent `2 ** e` is a float and `np.int32` truncates toward zero, which on
the nonnegative value `model_width * 2.0 ** e` is `model_width / 2 ^ (-e)`
in truncating natural division. -/
def lstmFilters (model_width model_depth j : Nat) : Nat :=
  let e : Int := (model_depth : Int) - (j : Int) - 2
  if 0 ≤ e then model_width * 2 ^ e.toNat
  else model_width / 2 ^ (-e).toNat

/-- One entry of the model's output list.  The Python variable `outputs` is
initialised to the empty list `[]` and replaced by an output tensor only
when `problem_type` is `'Classification'` or `'Regression'`; whatever value
it holds is what gets placed in the output list, so an entry is either a
named graph tensor or the leftover empty-list placeholder. -/
inductive OutEntry where
  | tensor (name : String) (shape : TensorShape)
  | empty
deriving DecidableEq, Repr

/-- Channel bookkeeping of one decoder merge stage (observation of the
skip/decoder channel counts entering the merge and the channel count of the
merged tensor). -/
structure MergeInfo where
  skipC : Nat
  upC : Nat
  mergedC : Nat
deriving DecidableEq, Repr

/-- The configuration record: the constructor arguments of class `SEDUNet`
(lines 90-122), stored on `self` under the same names. -/
structure SEDUNet where
  length : Nat
  width : Nat
  model_depth : Nat
  model_width : Nat
  kernel_size : Nat
  num_channel : Nat
  problem_type : String
  output_nums : Nat
  D_S : Nat
  A_E : Nat
  A_G : Nat
  LSTM : Nat
  dense_loop : Nat
  se_ratio : Nat
  feature_number : Nat
  is_transconv : Bool
deriving DecidableEq, Repr

/-- State after the encoder: the running pooled tensor and
`list(convs.values())`, the per-level pre-pooling conv tensors in level
order 1..i. -/
structure EncodeState where
  pool : TensorShape
  convs_list : List TensorShape
deriving DecidableEq, Repr

/-- Encoder loop (lines 133-140) run for the first `i` levels: level `i`
applies two `Conv_Block`s with multiplier `2^(i-1)`, records the conv
tensor, and max-pools. -/
def encodeLoop (c : SEDUNet) : Nat → EncodeState
  | 0 => { pool := ⟨c.length, c.width, c.num_channel⟩, convs_list := [] }
  | n + 1 =>
    let s := encodeLoop c n
    let conv := Conv_Block (Conv_Block s.pool c.model_width c.kernel_size (2 ^ n))
      c.model_width c.kernel_size (2 ^ n)
    { pool := MaxPooling2D conv, convs_list := s.convs_list ++ [conv] }

/-- Decoder loop state: the running decoder tensor, the deep-supervision
`levels` list (each entry tagged with the level number used in the layer
name `level{model_depth - j}`), and the per-iteration merge observations. -/
structure DecodeState where
  deconv : TensorShape
  levels : List (Nat × TensorShape)
  merges : List MergeInfo
deriving DecidableEq, Repr

/-- Body of the decoder loop (lines 153-176) for iteration `j`. -/
def decodeStep (c : SEDUNet) (convs_list : List TensorShape) (j : Nat)
    (st : DecodeState) : DecodeState :=
  let skip0 := convs_list.getD (c.model_depth - j - 1) ⟨0, 0, 0⟩
  let skip_connection :=
    if c.A_G = 1 then
      Attention_Block skip0 st.deconv c.model_width (2 ^ (c.model_depth - j - 1))
    else skip0
  let levels :=
    if c.D_S = 1 then
      st.levels ++ [(c.model_depth - j, Conv2D_1x1 1 st.deconv)]
    else st.levels
  let deconv :=
    if c.is_transconv then
      SqueezeExcite (trans_conv2D st.deconv c.model_width (2 ^ (c.model_depth - j - 1)))
        c.se_ratio
    else
      SqueezeExcite (upConv_Block st.deconv) c.se_ratio
  if c.LSTM = 1 then
    -- Reshape targets (lines 168-169): both tensors are forced to
    -- (1, length/2^(d-j-1), width/2^(d-j-1), model_width*2^(d-j-1));
    -- np.int32 of the float divisions is truncating Nat division.
    let x1 : SeqTensorShape :=
      ⟨1, c.length / 2 ^ (c.model_depth - j - 1), c.width / 2 ^ (c.model_depth - j - 1),
        c.model_width * 2 ^ (c.model_depth - j - 1)⟩
    let x2 : SeqTensorShape :=
      ⟨1, c.length / 2 ^ (c.model_depth - j - 1), c.width / 2 ^ (c.model_depth - j - 1),
        c.model_width * 2 ^ (c.model_depth - j - 1)⟩
    let merge := seqConcat x1 x2
    let out := ConvLSTM2D (lstmFilters c.model_width c.model_depth j) merge
    let deconv2 := Conv_Block out c.model_width c.kernel_size (2 ^ (c.model_depth - j - 1))
    let deconv2 := SqueezeExcite deconv2 c.se_ratio
    let deconv2 := Conv_Block deconv2 c.model_width c.kernel_size (2 ^ (c.model_depth - j - 1))
    { deconv := deconv2, levels := levels,
      merges := st.merges ++ [⟨x1.c, x2.c, out.c⟩] }
  else if c.LSTM = 0 then
    let out := Concat_Block deconv [skip_connection]
    let deconv2 := Conv_Block out c.model_width c.kernel_size (2 ^ (c.model_depth - j - 1))
    let deconv2 := SqueezeExcite deconv2 c.se_ratio
    let deconv2 := Conv_Block deconv2 c.model_width c.kernel_size (2 ^ (c.model_depth - j - 1))
    { deconv := deconv2, levels := levels,
      merges := st.merges ++ [⟨skip_connection.c, deconv.c, out.c⟩] }
  else
    -- `if self.LSTM == 1 ... elif self.LSTM == 0`: any other flag value
    -- performs no merge at all.
    let deconv2 := Conv_Block deconv c.model_width c.kernel_size (2 ^ (c.model_depth - j - 1))
    let deconv2 := SqueezeExcite deconv2 c.se_ratio
    let deconv2 := Conv_Block deconv2 c.model_width c.kernel_size (2 ^ (c.model_depth - j - 1))
    { deconv := deconv2, levels := levels,
      merges := st.merges ++ [⟨skip_connection.c, deconv.c, deconv.c⟩] }

/-- Decoder loop (line 153) run for the first `n` iterations `j = 0..n-1`,
starting from the bottleneck tensor. -/
def decodeLoop (c : SEDUNet) (convs_list : List TensorShape) (start : TensorShape) :
    Nat → DecodeState
  | 0 => { deconv := start, levels := [], merges := [] }
  | n + 1 => decodeStep c convs_list n (decodeLoop c convs_list start n)

/-- The Keras layer name of a deep-supervision entry: `f'level{...}'`
applied to the stored level tag. -/
def levelEntry (p : Nat × TensorShape) : OutEntry :=
  OutEntry.tensor ("level" ++ toString p.1) p.2

/-- Everything the build produces that the claims observe: the output list
passed to `tf.keras.Model`, the value of the Python variable `outputs` at
model-construction time, the final decoder tensor (before the output 1x1
projection), the encoder skip list and the deep-supervision data. -/
structure BuildResult where
  modelOutputs : List OutEntry
  outputsEntry : OutEntry
  finalDeconv : TensorShape
  skips : List TensorShape
  levels : List (Nat × TensorShape)
  merges : List MergeInfo
deriving DecidableEq, Repr

/-- The bottleneck stage (lines 142-147): `dense_block` with
`dense_loop - 1` repeats (Python's `range` of a negative number is empty,
matching truncating `Nat` subtraction), the optional autoencoder
feature-extraction block, then two `Conv_Block`s at multiplier
`2 ^ model_depth`. -/
def bottleneck (c : SEDUNet) (pool : TensorShape) : TensorShape :=
  let conv := dense_block pool c.model_width c.kernel_size (2 ^ c.model_depth)
    (c.dense_loop - 1)
  let conv := if c.A_E = 1 then
    Feature_Extraction_Block conv c.model_width c.feature_number else conv
  let conv := Conv_Block conv c.model_width c.kernel_size (2 ^ c.model_depth)
  Conv_Block conv c.model_width c.kernel_size (2 ^ c.model_depth)

/-- The body of `SEDUNet.SEDUNet` (lines 129-193) past the parameter guard. -/
def buildCore (c : SEDUNet) : BuildResult :=
  let e := encodeLoop c c.model_depth
  let conv := bottleneck c e.pool
  let st := decodeLoop c e.convs_list conv c.model_depth
  let outputsEntry : OutEntry :=
    if c.problem_type = "Classification" then
      OutEntry.tensor "out" (Conv2D_1x1 c.output_nums st.deconv)
    else if c.problem_type = "Regression" then
      OutEntry.tensor "out" (Conv2D_1x1 c.output_nums st.deconv)
    else OutEntry.empty
  let modelOutputs :=
    if c.D_S = 1 then ((st.levels.map levelEntry) ++ [outputsEntry]).reverse
    else [outputsEntry]
  { modelOutputs := modelOutputs, outputsEntry := outputsEntry,
    finalDeconv := st.deconv, skips := e.convs_list,
    levels := st.levels, merges := st.merges }

/-- `SEDUNet.SEDUNet` (lines 124-193): the guard at lines 126-127 (note:
`width` is not among the checked parameters), then the graph build. -/
def SEDUNet.SEDUNet (self : SEDUNet) : Except String BuildResult :=
  if self.length = 0 ∨ self.model_depth = 0 ∨ self.model_width = 0 ∨
      self.num_channel = 0 ∨ self.kernel_size = 0 then
    Except.error "Please Check the Values of the Input Parameters!"
  else
    Except.ok (buildCore self)

/-- Spatial height of an output entry (0 for the empty-list placeholder). -/
def entryH : OutEntry → Nat
  | OutEntry.tensor _ t => t.h
  | OutEntry.empty => 0

/-- The spec's concrete scenario: `length=width=16, model_depth=2,
model_width=8, kernel_size=3, num_channel=1, output_nums=1,
problem_type="Regression"`, all flags off, `dense_loop=1`. -/
def cfgBase : SEDUNet :=
  { length := 16, width := 16, model_depth := 2, model_width := 8,
    kernel_size := 3, num_channel := 1, problem_type := "Regression",
    output_nums := 1, D_S := 0, A_E := 0, A_G := 0, LSTM := 0,
    dense_loop := 1, se_ratio := 16, feature_number := 1024,
    is_transconv := true }

/-- The same scenario with deep supervision on (`ds=1`). -/
def cfgDS : SEDUNet := { cfgBase with D_S := 1 }

/-- A depth-1 configuration with the recurrent merge on (`lstm=1`),
`model_width=16`. -/
def cfgLSTM : SEDUNet :=
  { length := 16, width := 16, model_depth := 1, model_width := 16,
    kernel_size := 3, num_channel := 1, problem_type := "Regression",
    output_nums := 1, D_S := 0, A_E := 0, A_G := 0, LSTM := 1,
    dense_loop := 1, se_ratio := 16, feature_number := 1024,
    is_transconv := true }

/-- A configuration with `width = 0` and every guarded parameter nonzero. -/
def cfgZeroWidth : SEDUNet := { cfgBase with width := 0 }

/-- A configuration whose `problem_type` is neither `'Classification'` nor
`'Regression'`, deep supervision off. -/
def cfgOther : SEDUNet := { cfgBase with problem_type := "Segmentation", model_depth := 1 }

/-- The same unrecognised `problem_type` with deep supervision on. -/
def cfgOtherDS : SEDUNet := { cfgOther with D_S := 1 }

/-- A successful build is the guarded body's result. -/
theorem SEDUNet_ok_eq (c : SEDUNet) (r : BuildResult)
    (h : c.SEDUNet = Except.ok r) : r = buildCore c := by
  unfold SEDUNet.SEDUNet at h
  by_cases hg : c.length = 0 ∨ c.model_depth = 0 ∨ c.model_width = 0 ∨
      c.num_channel = 0 ∨ c.kernel_size = 0
  · rw [if_pos hg] at h
    exact absurd h (by simp)
  · rw [if_neg hg] at h
    injection h with h
    exact h.symm

/-! ### Helper lemmas -/

/-- Folding a function over `range l.length` while indexing into `l` is the
same as folding over `l` itself. -/
theorem foldl_range_getD {α β : Type} (f : β → α → β) (d : α) (l : List α) (x : β) :
    (List.range l.length).foldl (fun acc arg => f acc (l.getD arg d)) x = l.foldl f x := by
  induction l using List.reverseRecOn generalizing x with
  | nil => rfl
  | append_singleton l a ih =>
    rw [List.length_append, List.length_singleton, List.range_succ, List.foldl_append,
      List.foldl_append]
    have hagree : ∀ (acc : β), ∀ arg ∈ List.range l.length,
        f acc ((l ++ [a]).getD arg d) = f acc (l.getD arg d) := by
      intro acc arg harg
      rw [List.getD_append _ _ _ _ (List.mem_range.mp harg)]
    rw [List.foldl_ext _ _ x hagree, ih]
    simp [List.getD_append_right l [a] d l.length le_rfl]

/-- `Concat_Block` is the left fold of pairwise channel concatenation. -/
theorem Concat_Block_foldl (input1 : TensorShape) (argv : List TensorShape) :
    Concat_Block input1 argv = argv.foldl concatenate input1 :=
  foldl_range_getD concatenate ⟨0, 0, 0⟩ argv input1

/-- Shape law of `dense_block`: spatial dims preserved, channels grow by
`num_filters * multiplier` per repetition. -/
theorem dense_block_shape (x : TensorShape) (num_filters kernel_size multiplier n : Nat) :
    dense_block x num_filters kernel_size multiplier n =
      ⟨x.h, x.w, x.c + n * (num_filters * multiplier)⟩ := by
  induction n generalizing x with
  | zero => simp [dense_block]
  | succ n ih =>
    rw [dense_block, ih]
    simp [concatenate, Conv_Block]
    ring

/-- Spatial dims of the running pooled tensor after `n` encoder levels. -/
theorem encodeLoop_pool_spatial (c : SEDUNet) (n : Nat) :
    (encodeLoop c n).pool.h = c.length / 2 ^ n ∧
      (encodeLoop c n).pool.w = c.width / 2 ^ n := by
  induction n with
  | zero => simp [encodeLoop]
  | succ n ih =>
    rw [encodeLoop]
    simp only [MaxPooling2D, Conv_Block]
    constructor
    · rw [ih.1, Nat.div_div_eq_div_mul, pow_succ]
    · rw [ih.2, Nat.div_div_eq_div_mul, pow_succ]

/-- The encoder records exactly one conv tensor per level. -/
theorem encodeLoop_convs_length (c : SEDUNet) (n : Nat) :
    (encodeLoop c n).convs_list.length = n := by
  induction n with
  | zero => rfl
  | succ n ih => simp [encodeLoop, ih]

/-- The bottleneck stage preserves the spatial dims of its input. -/
theorem bottleneck_spatial (c : SEDUNet) (pool : TensorShape) :
    (bottleneck c pool).h = pool.h ∧ (bottleneck c pool).w = pool.w := by
  by_cases hae : c.A_E = 1 <;>
    simp [bottleneck, hae, Conv_Block, Feature_Extraction_Block, dense_block_shape]

/-- Reversing a map over `range n` reindexes from the other end. -/
theorem reverse_map_range {α : Type} (n : Nat) (f : Nat → α) :
    ((List.range n).map f).reverse = (List.range n).map (fun i => f (n - 1 - i)) := by
  induction n with
  | zero => rfl
  | succ n ih =>
    conv_lhs => rw [List.range_succ]
    conv_rhs => rw [List.range_succ_eq_map]
    rw [List.map_append, List.reverse_append, ih]
    simp only [List.map_cons, List.map_nil, List.reverse_cons, List.reverse_nil,
      List.nil_append, List.singleton_append, List.map_map]
    congr 1
    apply List.map_congr_left
    intro i _
    simp only [Function.comp]
    congr 1
    omega

/-- Doubling an exact power-of-two quotient steps the exponent down. -/
theorem div_pow_double (L d n : Nat) (h : 2 ^ d ∣ L) (hn : n < d) :
    2 * (L / 2 ^ (d - n)) = L / 2 ^ (d - n - 1) := by
  obtain ⟨m, rfl⟩ := h
  have e1 : 2 ^ d = 2 ^ (d - n) * 2 ^ n := by
    rw [← pow_add]
    congr 1
    omega
  have e2 : 2 ^ d = 2 ^ (d - n - 1) * 2 ^ (n + 1) := by
    rw [← pow_add]
    congr 1
    omega
  have p1 : 0 < 2 ^ (d - n) := pow_pos (by norm_num) _
  have p2 : 0 < 2 ^ (d - n - 1) := pow_pos (by norm_num) _
  conv_lhs => rw [e1, mul_assoc, Nat.mul_div_cancel_left _ p1]
  conv_rhs => rw [e2, mul_assoc, Nat.mul_div_cancel_left _ p2]
  rw [pow_succ]
  ring

/-- In every decoder iteration `j < model_depth`, the ConvLSTM2D filter
count is the floored *quarter* of the channel count of the concatenated
reshaped pair (each reshaped tensor carries
`model_width * 2 ^ (model_depth - j - 1)` channels). -/
theorem lstmFilters_quarter (mw d j : Nat) (hj : j < d) :
    lstmFilters mw d j = (mw * 2 ^ (d - j - 1) + mw * 2 ^ (d - j - 1)) / 4 := by
  unfold lstmFilters
  by_cases he : (0 : Int) ≤ (d : Int) - (j : Int) - 2
  · rw [if_pos he]
    obtain ⟨k, hk1, hk2⟩ : ∃ k, d - j - 1 = k + 1 ∧ ((d : Int) - (j : Int) - 2).toNat = k :=
      ⟨d - j - 2, by omega, by omega⟩
    rw [hk1, hk2, pow_succ]
    have hrw : mw * (2 ^ k * 2) + mw * (2 ^ k * 2) = mw * 2 ^ k * 4 := by ring
    rw [hrw, Nat.mul_div_cancel _ (by norm_num)]
  · rw [if_neg he]
    have h1 : d - j - 1 = 0 := by omega
    have h2 : (-((d : Int) - (j : Int) - 2)).toNat = 1 := by omega
    rw [h1, h2, pow_zero, pow_one]
    omega

/-- With the recurrent merge on, the merge trace after `n` decoder
iterations: per iteration `j`, both reshaped operands carry
`model_width * 2 ^ (model_depth - j - 1)` channels and the merged tensor
carries `lstmFilters` channels. -/
theorem decodeLoop_merges_lstm (c : SEDUNet) (cl : List TensorShape) (s : TensorShape)
    (hl : c.LSTM = 1) (n : Nat) :
    (decodeLoop c cl s n).merges = (List.range n).map (fun j =>
      (⟨c.model_width * 2 ^ (c.model_depth - j - 1),
        c.model_width * 2 ^ (c.model_depth - j - 1),
        lstmFilters c.model_width c.model_depth j⟩ : MergeInfo)) := by
  induction n with
  | zero => rfl
  | succ n ih =>
    rw [decodeLoop, decodeStep]
    simp [hl, ih, List.range_succ, seqConcat, ConvLSTM2D]

/-- With deep supervision on, the level tags collected after `n` decoder
iterations are `model_depth - j` for `j = 0..n-1`: deepest level first. -/
theorem decodeLoop_levels_tags (c : SEDUNet) (cl : List TensorShape) (s : TensorShape)
    (hds : c.D_S = 1) (n : Nat) :
    (decodeLoop c cl s n).levels.map Prod.fst =
      (List.range n).map (fun j => c.model_depth - j) := by
  induction n with
  | zero => rfl
  | succ n ih =>
    rw [decodeLoop, decodeStep]
    by_cases hl1 : c.LSTM = 1 <;> by_cases hl0 : c.LSTM = 0 <;>
      simp [hds, hl1, hl0, ih, List.range_succ]

/-- Main decoder invariant under exact divisibility of the input spatial
dims: after `n ≤ model_depth` iterations the decoder tensor sits at spatial
resolution `(length / 2^(d-n), width / 2^(d-n))`, and (when `ds = 1`) the
level emitted at iteration `j` is the 1-channel tensor at resolution
`(length / 2^(d-j), width / 2^(d-j))`, tagged `d - j`. -/
theorem decodeLoop_spatial (c : SEDUNet) (cl : List TensorShape) (s : TensorShape)
    (hL : 2 ^ c.model_depth ∣ c.length) (hW : 2 ^ c.model_depth ∣ c.width)
    (hsh : s.h = c.length / 2 ^ c.model_depth) (hsw : s.w = c.width / 2 ^ c.model_depth) :
    ∀ n, n ≤ c.model_depth →
      (decodeLoop c cl s n).deconv.h = c.length / 2 ^ (c.model_depth - n) ∧
      (decodeLoop c cl s n).deconv.w = c.width / 2 ^ (c.model_depth - n) ∧
      (c.D_S = 1 → (decodeLoop c cl s n).levels = (List.range n).map (fun j =>
        (c.model_depth - j,
          (⟨c.length / 2 ^ (c.model_depth - j), c.width / 2 ^ (c.model_depth - j), 1⟩ :
            TensorShape)))) := by
  intro n
  induction n with
  | zero =>
    intro _
    refine ⟨?_, ?_, fun _ => rfl⟩
    · simpa [decodeLoop] using hsh
    · simpa [decodeLoop] using hsw
  | succ n ih =>
    intro hn
    have hn1 : n < c.model_depth := hn
    obtain ⟨ihh, ihw, ihlev⟩ := ih (Nat.le_of_lt hn1)
    have hdh : 2 * (c.length / 2 ^ (c.model_depth - n)) =
        c.length / 2 ^ (c.model_depth - n - 1) := div_pow_double _ _ _ hL hn1
    have hdw : 2 * (c.width / 2 ^ (c.model_depth - n)) =
        c.width / 2 ^ (c.model_depth - n - 1) := div_pow_double _ _ _ hW hn1
    have hexp : c.model_depth - (n + 1) = c.model_depth - n - 1 := by omega
    rw [decodeLoop, decodeStep, hexp]
    by_cases hl1 : c.LSTM = 1
    · refine ⟨?_, ?_, fun hds => ?_⟩
      · simp [hl1, Conv_Block, SqueezeExcite, ConvLSTM2D, seqConcat]
      · simp [hl1, Conv_Block, SqueezeExcite, ConvLSTM2D, seqConcat]
      · simp only [hl1, if_true, hds, ite_true]
        rw [ihlev hds, List.range_succ, List.map_append]
        simp [Conv2D_1x1, ihh, ihw]
    · by_cases hl0 : c.LSTM = 0
      · refine ⟨?_, ?_, fun hds => ?_⟩
        · by_cases htc : c.is_transconv <;>
            simp [hl1, hl0, htc, Conv_Block, SqueezeExcite, trans_conv2D, upConv_Block,
              Concat_Block_foldl, concatenate, ihh, hdh]
        · by_cases htc : c.is_transconv <;>
            simp [hl1, hl0, htc, Conv_Block, SqueezeExcite, trans_conv2D, upConv_Block,
              Concat_Block_foldl, concatenate, ihw, hdw]
        · simp only [hl1, if_false, hl0, if_true, hds, ite_true]
          rw [ihlev hds, List.range_succ, List.map_append]
          simp [Conv2D_1x1, ihh, ihw]
      · refine ⟨?_, ?_, fun hds => ?_⟩
        · by_cases htc : c.is_transconv <;>
            simp [hl1, hl0, htc, Conv_Block, SqueezeExcite, trans_conv2D, upConv_Block,
              ihh, hdh]
        · by_cases htc : c.is_transconv <;>
            simp [hl1, hl0, htc, Conv_Block, SqueezeExcite, trans_conv2D, upConv_Block,
              ihw, hdw]
        · simp only [hl1, if_false, hl0, ite_false, hds, ite_true]
          rw [ihlev hds, List.range_succ, List.map_append]
          simp [Conv2D_1x1, ihh, ihw]

/-- The number of deep-supervision entries after `n` decoder iterations:
one per iteration when `ds = 1`, none otherwise. -/
theorem decodeLoop_levels_length (c : SEDUNet) (cl : List TensorShape)
    (s : TensorShape) (n : Nat) :
    (decodeLoop c cl s n).levels.length = if c.D_S = 1 then n else 0 := by
  induction n with
  | zero => simp [decodeLoop]
  | succ n ih =>
    rw [decodeLoop, decodeStep]
    by_cases hds : c.D_S = 1 <;> by_cases hl1 : c.LSTM = 1 <;> by_cases hl0 : c.LSTM = 0 <;>
      simp [hds, hl1, hl0, ih]

/-! ### Claim theorems -/

/-- C1: for every valid configuration (guard passed, `problem_type` one of
Classification/Regression), the returned model's output collection has
length `model_depth + 1` when deep supervision is on, and `1` otherwise. -/
theorem C1_output_collection_length (c : SEDUNet) (r : BuildResult)
    (hok : c.SEDUNet = Except.ok r)
    (hpt : c.problem_type = "Classification" ∨ c.problem_type = "Regression") :
    r.modelOutputs.length = if c.D_S = 1 then c.model_depth + 1 else 1 := by
  rw [SEDUNet_ok_eq c r hok]
  by_cases hds : c.D_S = 1
  · simp [buildCore, hds, decodeLoop_levels_length]
  · simp [buildCore, hds]

/-- Witness for C1 at the concrete deep-supervision scenario
(`length=width=16, model_depth=2, ds=1`): 2 + 1 = 3 outputs. -/
theorem C1_output_collection_length_witness :
    cfgDS.SEDUNet = Except.ok (buildCore cfgDS) ∧
    (cfgDS.problem_type = "Classification" ∨ cfgDS.problem_type = "Regression") ∧
    (buildCore cfgDS).modelOutputs.length =
      (if cfgDS.D_S = 1 then cfgDS.model_depth + 1 else 1) :=
  ⟨rfl, Or.inr rfl,
    C1_output_collection_length cfgDS (buildCore cfgDS) rfl (Or.inr rfl)⟩

/-- C3 (amended): the dense block's output channel count is
`C + n * (width * multiplier)` — each repetition concatenates the single
output of two *chained* Conv Blocks (of width `width * multiplier`) onto
the running tensor, not two separate outputs. Spatial dims are preserved. -/
theorem C3_dense_block_channels (x : TensorShape)
    (num_filters kernel_size multiplier n : Nat) :
    dense_block x num_filters kernel_size multiplier n =
      ⟨x.h, x.w, x.c + n * (num_filters * multiplier)⟩ :=
  dense_block_shape x num_filters kernel_size multiplier n

/-- C3 counterexample: one repeat with width 1, multiplier 1 on a 1-channel
input yields 2 channels, not the claimed `1 + 1 * 2 * 1 * 1 = 3`. -/
theorem C3_counterexample :
    (dense_block ⟨8, 8, 1⟩ 1 3 1 1).c = 2 ∧
    (dense_block ⟨8, 8, 1⟩ 1 3 1 1).c ≠ 1 + 1 * 2 * 1 * 1 := by decide

/-- C4 (amended): Squeeze-Excite performs no divisibility check and never
fails: the reduce layer is sized with floor division `channels / ratio` and
the output shape always equals the input shape; when `ratio` divides the
channel count the reduction is exact (`ratio * units = channels`). -/
theorem C4_squeeze_excite_divisible (x : TensorShape) (ratio : Nat)
    (h : ratio ∣ x.c) :
    SqueezeExcite x ratio = x ∧ ratio * SqueezeExciteReduce x.c ratio = x.c :=
  ⟨rfl, Nat.mul_div_cancel' h⟩

/-- Witness for C4 at 32 channels, ratio 16: exact reduction to 2 units. -/
theorem C4_squeeze_excite_divisible_witness :
    (16 : Nat) ∣ (32 : Nat) ∧
    (SqueezeExcite ⟨4, 4, 32⟩ 16 = ⟨4, 4, 32⟩ ∧
      16 * SqueezeExciteReduce 32 16 = 32) :=
  ⟨by decide, C4_squeeze_excite_divisible ⟨4, 4, 32⟩ 16 (by decide)⟩

/-- C4 counterexample: 17 channels with ratio 16 is not divisible, yet
Squeeze-Excite construction succeeds (the source has no check; `//` floors)
with a 1-unit reduce layer, instead of failing. -/
theorem C4_counterexample :
    ¬ (16 : Nat) ∣ (17 : Nat) ∧ SqueezeExcite ⟨4, 4, 17⟩ 16 = ⟨4, 4, 17⟩ ∧
    SqueezeExciteReduce 17 16 = 1 := by decide

/-- C5 (amended): the build raises the (generic) ValueError exactly when
one of `length`, `model_depth`, `model_width`, `num_channel`,
`kernel_size` is zero; `width` is not among the checked parameters, and
the message does not name the failed condition. -/
theorem C5_guard_characterisation (c : SEDUNet) :
    c.SEDUNet = Except.error "Please Check the Values of the Input Parameters!" ↔
      (c.length = 0 ∨ c.model_depth = 0 ∨ c.model_width = 0 ∨
        c.num_channel = 0 ∨ c.kernel_size = 0) := by
  unfold SEDUNet.SEDUNet
  by_cases hg : c.length = 0 ∨ c.model_depth = 0 ∨ c.model_width = 0 ∨
      c.num_channel = 0 ∨ c.kernel_size = 0
  · simp [hg]
  · simp [hg]

/-- C5 counterexample: `width = 0` with every guarded parameter nonzero is
accepted — the build returns a model instead of raising. -/
theorem C5_counterexample :
    cfgZeroWidth.width = 0 ∧
    cfgZeroWidth.SEDUNet = Except.ok (buildCore cfgZeroWidth) :=
  ⟨rfl, rfl⟩

/-- C10: the concatenation block applied to zero additional arguments
returns its first argument unchanged (the loop body never runs), and in
general it left-folds pairwise channel-axis concatenation over the
argument list in the order given. -/
theorem C10_concat_block :
    (∀ t : TensorShape, Concat_Block t [] = t) ∧
    (∀ (t : TensorShape) (argv : List TensorShape),
      Concat_Block t argv = argv.foldl concatenate t) :=
  ⟨fun _ => rfl, fun t argv => Concat_Block_foldl t argv⟩

/-- C2: with deep supervision on, auxiliary outputs are collected deepest
level first (tags `model_depth, model_depth-1, ..., 1`), the final output is
appended and the whole sequence reversed, so the model's output list is the
final output first, then the auxiliaries shallowest to deepest; at the
concrete scenario `length=width=16, model_depth=2, ds=1` the list is
`[out(16x16), level1(8x8), level2(4x4)]` — length 3. -/
theorem C2_output_ordering :
    (∀ (c : SEDUNet) (r : BuildResult), c.SEDUNet = Except.ok r → c.D_S = 1 →
      r.modelOutputs = r.outputsEntry :: (r.levels.reverse.map levelEntry) ∧
      r.levels.map Prod.fst =
        (List.range c.model_depth).map (fun j => c.model_depth - j)) ∧
    (buildCore cfgDS).modelOutputs =
      [OutEntry.tensor "out" ⟨16, 16, 1⟩, OutEntry.tensor "level1" ⟨8, 8, 1⟩,
        OutEntry.tensor "level2" ⟨4, 4, 1⟩] := by
  constructor
  · intro c r hok hds
    rw [SEDUNet_ok_eq c r hok]
    constructor
    · simp [buildCore, hds, List.reverse_append, List.map_reverse]
    · simp only [buildCore]
      exact decodeLoop_levels_tags c _ _ hds c.model_depth
  · decide

/-- Witness for C2's general part at the concrete scenario. -/
theorem C2_output_ordering_witness :
    cfgDS.SEDUNet = Except.ok (buildCore cfgDS) ∧ cfgDS.D_S = 1 ∧
    ((buildCore cfgDS).modelOutputs = (buildCore cfgDS).outputsEntry ::
        ((buildCore cfgDS).levels.reverse.map levelEntry) ∧
      (buildCore cfgDS).levels.map Prod.fst =
        (List.range cfgDS.model_depth).map (fun j => cfgDS.model_depth - j)) :=
  ⟨rfl, rfl, C2_output_ordering.1 cfgDS (buildCore cfgDS) rfl rfl⟩

/-- C6: for every successful build whose input spatial dims are divisible
by `2 ^ model_depth`, the final decoder tensor (before the output 1x1
projection) has exactly the input spatial dims: the `model_depth` poolings
and `model_depth` upsamplings cancel. -/
theorem C6_roundtrip_spatial (c : SEDUNet) (r : BuildResult)
    (hok : c.SEDUNet = Except.ok r)
    (hL : 2 ^ c.model_depth ∣ c.length) (hW : 2 ^ c.model_depth ∣ c.width) :
    r.finalDeconv.h = c.length ∧ r.finalDeconv.w = c.width := by
  rw [SEDUNet_ok_eq c r hok]
  simp only [buildCore]
  have hb := bottleneck_spatial c (encodeLoop c c.model_depth).pool
  have hp := encodeLoop_pool_spatial c c.model_depth
  have h := decodeLoop_spatial c (encodeLoop c c.model_depth).convs_list
    (bottleneck c (encodeLoop c c.model_depth).pool) hL hW
    (by rw [hb.1, hp.1]) (by rw [hb.2, hp.2]) c.model_depth le_rfl
  refine ⟨?_, ?_⟩
  · rw [h.1]
    simp
  · rw [h.2.1]
    simp

/-- Witness for C6 at the concrete scenario (depth 2, 16x16 input). -/
theorem C6_roundtrip_spatial_witness :
    cfgBase.SEDUNet = Except.ok (buildCore cfgBase) ∧
    2 ^ cfgBase.model_depth ∣ cfgBase.length ∧
    2 ^ cfgBase.model_depth ∣ cfgBase.width ∧
    ((buildCore cfgBase).finalDeconv.h = cfgBase.length ∧
      (buildCore cfgBase).finalDeconv.w = cfgBase.width) :=
  ⟨rfl, by decide, by decide,
    C6_roundtrip_spatial cfgBase (buildCore cfgBase) rfl (by decide) (by decide)⟩

/-- C7 (amended): with the recurrent merge on, each decoder level reshapes
the skip and decoder tensors to a unit-length sequence, concatenates them
along the feature axis, and passes them through a backward ConvLSTM cell
whose output channel count is the floored *quarter* of the channel count
plain concatenation would produce — not half. -/
theorem C7_lstm_merge_quarter (c : SEDUNet) (r : BuildResult)
    (hok : c.SEDUNet = Except.ok r) (hl : c.LSTM = 1) :
    r.merges.length = c.model_depth ∧
    r.merges.map MergeInfo.mergedC =
      r.merges.map (fun m => (m.skipC + m.upC) / 4) := by
  rw [SEDUNet_ok_eq c r hok]
  simp only [buildCore]
  rw [decodeLoop_merges_lstm _ _ _ hl]
  refine ⟨by simp, ?_⟩
  simp only [List.map_map]
  apply List.map_congr_left
  intro j hj
  simp only [Function.comp]
  exact lstmFilters_quarter c.model_width c.model_depth j (List.mem_range.mp hj)

/-- Witness for C7 at the depth-1 recurrent-merge configuration. -/
theorem C7_lstm_merge_quarter_witness :
    cfgLSTM.SEDUNet = Except.ok (buildCore cfgLSTM) ∧ cfgLSTM.LSTM = 1 ∧
    ((buildCore cfgLSTM).merges.length = cfgLSTM.model_depth ∧
      (buildCore cfgLSTM).merges.map MergeInfo.mergedC =
        (buildCore cfgLSTM).merges.map (fun m => (m.skipC + m.upC) / 4)) :=
  ⟨rfl, rfl, C7_lstm_merge_quarter cfgLSTM (buildCore cfgLSTM) rfl rfl⟩

/-- C7 counterexample: at depth 1 with `model_width = 16` the reshaped
operands carry 16 channels each (naive concatenation: 32) while the
ConvLSTM output carries 8 channels — a quarter, not the claimed half. -/
theorem C7_counterexample :
    (buildCore cfgLSTM).merges = [⟨16, 16, 8⟩] ∧
    (buildCore cfgLSTM).merges.map MergeInfo.mergedC ≠
      (buildCore cfgLSTM).merges.map (fun m => (m.skipC + m.upC) / 2) := by
  decide

/-- C8 (amended): with deep supervision on (valid problem type, spatial
dims divisible by `2 ^ model_depth`), the output collection is ordered from
*finest* resolution first to *coarsest* last: its spatial heights are
`length/2^0, length/2^1, ..., length/2^model_depth`, a nonincreasing
sequence — the final full-resolution output comes first and the deepest
auxiliary output last, the reverse of the claimed order. -/
theorem C8_output_resolution_order (c : SEDUNet) (r : BuildResult)
    (hok : c.SEDUNet = Except.ok r) (hds : c.D_S = 1)
    (hpt : c.problem_type = "Classification" ∨ c.problem_type = "Regression")
    (hL : 2 ^ c.model_depth ∣ c.length) (hW : 2 ^ c.model_depth ∣ c.width) :
    r.modelOutputs.map entryH =
      (List.range (c.model_depth + 1)).map (fun k => c.length / 2 ^ k) ∧
    List.Chain' (fun a b => b ≤ a) (r.modelOutputs.map entryH) := by
  rw [SEDUNet_ok_eq c r hok]
  have hb := bottleneck_spatial c (encodeLoop c c.model_depth).pool
  have hp := encodeLoop_pool_spatial c c.model_depth
  have h := decodeLoop_spatial c (encodeLoop c c.model_depth).convs_list
    (bottleneck c (encodeLoop c c.model_depth).pool) hL hW
    (by rw [hb.1, hp.1]) (by rw [hb.2, hp.2]) c.model_depth le_rfl
  have hfin : (decodeLoop c (encodeLoop c c.model_depth).convs_list
      (bottleneck c (encodeLoop c c.model_depth).pool) c.model_depth).deconv.h =
      c.length := by
    rw [h.1]
    simp
  have hmain : (buildCore c).modelOutputs.map entryH =
      (List.range (c.model_depth + 1)).map (fun k => c.length / 2 ^ k) := by
    simp only [buildCore, hds, ite_true, if_true]
    rw [h.2.2 hds]
    have hoe : entryH (if c.problem_type = "Classification" then
        OutEntry.tensor "out" (Conv2D_1x1 c.output_nums
          (decodeLoop c (encodeLoop c c.model_depth).convs_list
            (bottleneck c (encodeLoop c c.model_depth).pool) c.model_depth).deconv)
      else if c.problem_type = "Regression" then
        OutEntry.tensor "out" (Conv2D_1x1 c.output_nums
          (decodeLoop c (encodeLoop c c.model_depth).convs_list
            (bottleneck c (encodeLoop c c.model_depth).pool) c.model_depth).deconv)
      else OutEntry.empty) = c.length := by
      rcases hpt with hcl | hrg
      · simp [hcl, entryH, Conv2D_1x1, hfin]
      · by_cases hcl : c.problem_type = "Classification"
        · simp [hcl, entryH, Conv2D_1x1, hfin]
        · simp [hcl, hrg, entryH, Conv2D_1x1, hfin]
    rw [List.map_reverse, List.map_append, List.map_map, List.map_cons, List.map_nil, hoe]
    have hlev : List.map ((entryH ∘ levelEntry) ∘ fun j => ((c.model_depth - j : Nat),
        (⟨c.length / 2 ^ (c.model_depth - j), c.width / 2 ^ (c.model_depth - j), 1⟩ :
          TensorShape))) (List.range c.model_depth) =
        (List.range c.model_depth).map (fun j => c.length / 2 ^ (c.model_depth - j)) :=
      List.map_congr_left (fun j _ => rfl)
    rw [List.map_map, hlev, List.reverse_append]
    simp only [List.reverse_cons, List.reverse_nil, List.nil_append, List.singleton_append]
    rw [reverse_map_range]
    rw [List.range_succ_eq_map, List.map_cons, List.map_map]
    congr 1
    · simp
    · apply List.map_congr_left
      intro i hi
      simp only [Function.comp]
      have hi' := List.mem_range.mp hi
      have hexp : c.model_depth - (c.model_depth - 1 - i) = i + 1 := by omega
      show c.length / 2 ^ (c.model_depth - (c.model_depth - 1 - i)) =
        c.length / 2 ^ (i + 1)
      rw [hexp]
  refine ⟨hmain, ?_⟩
  rw [hmain, List.chain'_map, List.chain'_range_succ]
  intro m _
  exact Nat.div_le_div_left (Nat.pow_le_pow_right (by norm_num) (Nat.le_succ m))
    (pow_pos (by norm_num) m)

/-- Witness for C8 at the concrete deep-supervision scenario: heights
16, 8, 4. -/
theorem C8_output_resolution_order_witness :
    cfgDS.SEDUNet = Except.ok (buildCore cfgDS) ∧ cfgDS.D_S = 1 ∧
    (cfgDS.problem_type = "Classification" ∨ cfgDS.problem_type = "Regression") ∧
    2 ^ cfgDS.model_depth ∣ cfgDS.length ∧ 2 ^ cfgDS.model_depth ∣ cfgDS.width ∧
    ((buildCore cfgDS).modelOutputs.map entryH =
        (List.range (cfgDS.model_depth + 1)).map (fun k => cfgDS.length / 2 ^ k) ∧
      List.Chain' (fun a b => b ≤ a) ((buildCore cfgDS).modelOutputs.map entryH)) :=
  ⟨rfl, rfl, Or.inr rfl, by decide, by decide,
    C8_output_resolution_order cfgDS (buildCore cfgDS) rfl rfl (Or.inr rfl)
      (by decide) (by decide)⟩

/-- C8 counterexample: at the concrete scenario the spatial heights of the
output collection are `[16, 8, 4]` — the first entry is the finest, not the
coarsest: the sequence is not nondecreasing. -/
theorem C8_counterexample :
    (buildCore cfgDS).modelOutputs.map entryH = [16, 8, 4] ∧
    ((buildCore cfgDS).modelOutputs.map entryH).head? = some 16 ∧
    ((buildCore cfgDS).modelOutputs.map entryH).getLast? = some 4 ∧
    ¬ (16 : Nat) ≤ 4 := by decide

/-- C9 (amended): for a configuration passing the guard whose
`problem_type` is neither 'Classification' nor 'Regression', no error is
raised and the projection stage is skipped — the `outputs` value stays the
initial empty list; the model's output list is the single empty placeholder
when `ds = 0`, but with `ds = 1` it is the auxiliary outputs preceded by
the placeholder, so it is not empty in general. -/
theorem C9_unknown_problem_type (c : SEDUNet) (r : BuildResult)
    (hok : c.SEDUNet = Except.ok r)
    (hc : c.problem_type ≠ "Classification") (hr : c.problem_type ≠ "Regression") :
    r.outputsEntry = OutEntry.empty ∧
    r.modelOutputs = (if c.D_S = 1 then
      OutEntry.empty :: (r.levels.map levelEntry).reverse else [OutEntry.empty]) := by
  rw [SEDUNet_ok_eq c r hok]
  constructor
  · simp [buildCore, hc, hr]
  · by_cases hds : c.D_S = 1 <;>
      simp [buildCore, hc, hr, hds, List.reverse_append]

/-- Witness for C9 at a guard-passing configuration with
`problem_type = "Segmentation"`, `ds = 0`. -/
theorem C9_unknown_problem_type_witness :
    cfgOther.SEDUNet = Except.ok (buildCore cfgOther) ∧
    cfgOther.problem_type ≠ "Classification" ∧
    cfgOther.problem_type ≠ "Regression" ∧
    ((buildCore cfgOther).outputsEntry = OutEntry.empty ∧
      (buildCore cfgOther).modelOutputs = (if cfgOther.D_S = 1 then
        OutEntry.empty :: ((buildCore cfgOther).levels.map levelEntry).reverse
        else [OutEntry.empty])) :=
  ⟨rfl, by decide, by decide,
    C9_unknown_problem_type cfgOther (buildCore cfgOther) rfl (by decide) (by decide)⟩

/-- C9 counterexample: with `ds = 1` and `problem_type = "Segmentation"`
the model's output list is not empty — it holds the level-1 auxiliary
tensor alongside the leftover empty placeholder. -/
theorem C9_counterexample :
    cfgOtherDS.SEDUNet = Except.ok (buildCore cfgOtherDS) ∧
    (buildCore cfgOtherDS).modelOutputs =
      [OutEntry.empty, OutEntry.tensor "level1" ⟨8, 8, 1⟩] ∧
    (buildCore cfgOtherDS).modelOutputs ≠ ([] : List OutEntry) ∧
    (buildCore cfgOtherDS).modelOutputs ≠ [OutEntry.empty] := by
  refine ⟨rfl, by decide, by decide, by decide⟩
